import Mathlib

/-!
Shallow embedding of the real-time voice-conversation pipeline
(src/app.py, src/main.py, src/tts.py) and verification of the frozen
claims about it.

Conventions used throughout:
* raw audio bytes are `List Nat`; a complete VAD frame in the server
  variant is a 960-byte group of those;
* floating-point diagnostics that only feed console prints (the RMS
  logging in handle_audio_chunk) are elided: they emit no client events
  and influence no control flow;
* external adapters (webrtcvad, faster-whisper, the OpenAI completion
  stream and speech endpoint) are oracle parameters; a raised exception
  is an explicit `none` / `Except.error` value;
* socket emission is modelled as appending an event to a per-session
  list, matching the ordered per-session transport the code relies on.
-/

/-- The vocabulary of events emitted to one client over the socket
(src/app.py): status updates, the transcript, streamed tokens, audio
chunks and skip signals tagged with a sequence index, the terminal
chunk count, and error messages. -/
inductive Ev where
  | status (state : String)
  | transcription (text : String)
  | llm_token (token : String)
  | bot_audio (bytes : List Nat) (index : Nat)
  | bot_audio_skip (index : Nat)
  | tts_complete (total_chunks : Nat)
  | error (message : String)
  deriving DecidableEq, Repr

/-- The sequence index carried by a delivered outcome event
(`bot_audio` or `bot_audio_skip`); `none` for every other event. -/
def outcomeIndex : Ev → Option Nat
  | Ev.bot_audio _ i => some i
  | Ev.bot_audio_skip i => some i
  | _ => none

/-- Whether an event is an `error` signal. -/
def Ev.isErrorEv : Ev → Bool
  | Ev.error _ => true
  | _ => false

/-- The Python `str.strip()` applied to text and sentence buffers:
drop leading and trailing whitespace characters. -/
def pyStrip (s : String) : String :=
  ⟨((s.data.dropWhile Char.isWhitespace).reverse.dropWhile Char.isWhitespace).reverse⟩

/-- Sentence-boundary test from src/app.py line 228:
`any(p in sentence_buffer for p in ['.', '!', '?', '\n']) and
len(sentence_buffer) > 15`.  Membership of a single-character string in
a Python string is character membership; `len` counts code points. -/
def splitCond (buffer : String) : Bool :=
  (buffer.data.contains '.' || buffer.data.contains '!' || buffer.data.contains '?'
    || buffer.data.contains '\n') && decide (buffer.data.length > 15)

/-- src/app.py line 42. -/
def SYSTEM_PROMPT : String :=
  "Be as pookie as possible and respond to me in a cute way without any emojis"

/-- Per-session state of the server variant (src/app.py class
SessionState, lines 47-57, plus the `chunk_count` attribute that the
audio handler adds lazily on first use; it starts at 0).  The
`rms_buffer` float diagnostics are elided (console-only). -/
structure SessionState where
  vad_buffer : List Nat
  audio_buffer : List (List Nat)
  is_recording : Bool
  silent_frames : Nat
  speech_frames : Nat
  conversation : List (String × String)
  last_activity : Nat
  processing : Bool
  chunk_count : Nat
  deriving DecidableEq, Repr

/-- A freshly constructed SessionState (src/app.py lines 48-57). -/
def SessionState.mkNew : SessionState where
  vad_buffer := []
  audio_buffer := []
  is_recording := false
  silent_frames := 0
  speech_frames := 0
  conversation := [("system", SYSTEM_PROMPT)]
  last_activity := 0
  processing := false
  chunk_count := 0

/-- One (frame, isSpeech) step of the utterance segmenter inside
handle_audio_chunk (src/app.py lines 125-149).  The third component is
the dispatched utterance, as the list of buffered frames, when the
silence threshold `silent_frames > 300 / 30` is exceeded; the handler
joins those frames into one byte string when spawning process_speech. -/
def appSegStep (s : SessionState) (frame : List Nat) (isSpeech : Bool) :
    SessionState × List Ev × Option (List (List Nat)) :=
  if isSpeech then
    let p := if s.is_recording then (s, ([] : List Ev))
             else ({ s with is_recording := true }, [Ev.status "listening"])
    ({ p.1 with audio_buffer := p.1.audio_buffer ++ [frame],
                speech_frames := p.1.speech_frames + 1,
                silent_frames := 0 }, p.2, none)
  else
    if s.is_recording then
      let s1 := { s with silent_frames := s.silent_frames + 1,
                         audio_buffer := s.audio_buffer ++ [frame] }
      if s1.silent_frames > 10 then
        ({ s1 with is_recording := false, audio_buffer := [],
                   silent_frames := 0, speech_frames := 0 },
         [Ev.status "processing"], some s1.audio_buffer)
      else (s1, [], none)
    else (s, [], none)

/-- Run of the segmenter over a sequence of (frame, isSpeech) inputs,
collecting every dispatched utterance (still as a frame list). -/
def appSegRun (s : SessionState) : List (List Nat × Bool) → SessionState × List (List (List Nat))
  | [] => (s, [])
  | (f, sp) :: rest =>
    let r := appSegStep s f sp
    let t := appSegRun r.1 rest
    (t.1, r.2.2.toList ++ t.2)

/-- Structural-fuel form of the frame-extraction loop: each iteration
removes 960 bytes, so the buffer length bounds the iteration count. -/
def toFramesAux : Nat → List Nat → List (List Nat) × List Nat
  | 0, bs => ([], bs)
  | fuel + 1, bs =>
    if 960 ≤ bs.length then
      let r := toFramesAux fuel (bs.drop 960)
      (bs.take 960 :: r.1, r.2)
    else ([], bs)

/-- Split a byte buffer into complete 960-byte frames and the
remainder, mirroring the `while len(state.vad_buffer) >= FRAME_BYTES`
loop of src/app.py lines 114-116. -/
def toFrames (bs : List Nat) : List (List Nat) × List Nat :=
  toFramesAux bs.length bs

/-- The per-frame body of the handler loop (src/app.py lines 114-149):
classify each complete frame with the VAD adapter (`none` models a
raised exception, which the code catches and skips with `continue`),
then feed the segmenter.  Dispatched utterances are joined into one
byte string, as `b"".join(state.audio_buffer)` does at line 144. -/
def appFramesLoop (s : SessionState) (vad : List Nat → Option Bool) :
    List (List Nat) → SessionState × List Ev × List (List Nat)
  | [] => (s, [], [])
  | f :: fs =>
    match vad f with
    | none => appFramesLoop s vad fs
    | some sp =>
      let r := appSegStep s f sp
      let t := appFramesLoop r.1 vad fs
      (t.1, r.2.1 ++ t.2.1, (r.2.2.map List.flatten).toList ++ t.2.2)

/-- The audio_chunk socket handler (src/app.py lines 80-149).  `reg` is
the registry entry for the event's session id (`none` when the id is
not in `sessions`); the handler creates a fresh SessionState in that
case (lines 83-84).  Returns the session state now stored in the
registry, the emitted events, and the utterances handed to spawned
process_speech background tasks.  The spawned tasks do not run inside
the handler. -/
def handle_audio_chunk (reg : Option SessionState) (data : List Nat)
    (vad : List Nat → Option Bool) (now : Nat) :
    SessionState × List Ev × List (List Nat) :=
  let st := reg.getD SessionState.mkNew
  let st := { st with last_activity := now, chunk_count := st.chunk_count + 1 }
  if st.processing then (st, [], [])
  else
    let st := { st with vad_buffer := st.vad_buffer ++ data }
    let fr := toFrames st.vad_buffer
    appFramesLoop { st with vad_buffer := fr.2 } vad fr.1

/-- The registry entry for the session id after an audio_chunk event:
the handler always stores a state (creating one when absent). -/
def sessionsAfterAudioChunk (reg : Option SessionState) (data : List Nat)
    (vad : List Nat → Option Bool) (now : Nat) : Option SessionState :=
  some (handle_audio_chunk reg data vad now).1

/-- tts.py `TTS.get_audio_bytes` (lines 19-34): empty text returns
None immediately; an exception from the speech endpoint is caught and
also returns None; otherwise the synthesized bytes.  `speech_create`
models the `client.audio.speech.create(...).content` call, with `none`
for a raised exception. -/
def get_audio_bytes (speech_create : String → Option (List Nat)) (text : String) :
    Option (List Nat) :=
  if text = "" then none
  else speech_create text

/-- The background TTS worker (src/app.py lines 151-170) consuming the
per-turn queue: it stops at the `None` sentinel, and for each queued
(text, index) pair emits one `bot_audio` when the synthesized bytes
are truthy (non-None and non-empty) and one `bot_audio_skip`
otherwise.  `get_audio_bytes` catches engine exceptions internally and
returns None, and emission is modelled as an event append, so the
worker body is total and the per-item outcome is always emitted. -/
def tts_worker (synth : String → Option (List Nat)) :
    List (Option (String × Nat)) → List Ev
  | [] => []
  | none :: _ => []
  | some (text, index) :: rest =>
    (match synth text with
     | some bytes => if bytes = [] then Ev.bot_audio_skip index else Ev.bot_audio bytes index
     | none => Ev.bot_audio_skip index) :: tts_worker synth rest

/-- Per-turn accumulator of the streaming loop in process_speech
(src/app.py lines 210-233): the full reply, the sentence buffer, the
next sequence index, and the (text, index) pairs pushed to the TTS
queue so far. -/
structure LoopState where
  full_reply : String
  sentence_buffer : String
  chunk_index : Nat
  queue : List (String × Nat)
  deriving DecidableEq, Repr

/-- One iteration of the token loop (src/app.py lines 215-233).  A
falsy token (None or the empty string) is skipped entirely by
`if token:`; otherwise the token is appended to both accumulators and,
when the boundary test passes, the stripped buffer is queued with the
current index, the buffer resets, and the index increments. -/
def streamStep (ls : LoopState) (token : String) : LoopState :=
  if token = "" then ls
  else
    let full := ls.full_reply ++ token
    let buf := ls.sentence_buffer ++ token
    if splitCond buf then
      { full_reply := full, sentence_buffer := "", chunk_index := ls.chunk_index + 1,
        queue := ls.queue ++ [(pyStrip buf, ls.chunk_index)] }
    else
      { full_reply := full, sentence_buffer := buf, chunk_index := ls.chunk_index,
        queue := ls.queue }

/-- The loop state after consuming a whole token stream. -/
def runStream (tokens : List String) : LoopState :=
  tokens.foldl streamStep ⟨"", "", 0, []⟩

/-- The sentence units submitted to the TTS queue for one turn,
including the final-flush of a remaining partial sentence
(src/app.py lines 236-237): the flush fires only when the stripped
remainder is non-empty, and reuses the current index without
incrementing it. -/
def splitUnits (tokens : List String) : List (String × Nat) :=
  let ls := runStream tokens
  if pyStrip ls.sentence_buffer = "" then ls.queue
  else ls.queue ++ [(pyStrip ls.sentence_buffer, ls.chunk_index)]

/-- The process_speech background task (src/app.py lines 172-259) for
one turn.  `reg` is the registry entry for the session id (`none`:
unknown id, the task returns at once).  `stt` models
`stt_model.transcribe` (`Except.error` = raised exception), `tokens`
the content fragments delivered by the completion stream before it
either ends or raises (`streamErr = some e`), and `speech_create` the
speech endpoint as in `get_audio_bytes`.

The TTS worker runs concurrently with the token loop; the code joins
it before emitting `tts_complete`, and a single ordered queue feeds
it, so its outcome events are serialized here after the token events.
When the stream raises, the already-queued items are still synthesized
by the running worker (which then blocks forever on an empty queue:
the sentinel is never sent on that path), and the handler's `except`
block emits the error before `processing` is cleared and the final
ready status is emitted. -/
def process_speech (reg : Option SessionState) (audio : List Nat)
    (stt : List Nat → Except String String) (tokens : List String)
    (streamErr : Option String) (speech_create : String → Option (List Nat)) :
    Option SessionState × List Ev :=
  match reg with
  | none => (none, [])
  | some st0 =>
    let st1 := { st0 with processing := true }
    match stt audio with
    | Except.error e =>
      (some { st1 with processing := false }, [Ev.error e, Ev.status "ready"])
    | Except.ok text =>
      if pyStrip text = "" ∨ (pyStrip text).data.length < 2 then
        (some { st1 with processing := false }, [Ev.status "ready"])
      else
        let st2 := { st1 with conversation := st1.conversation ++ [("user", text)] }
        let ls := runStream tokens
        let tokenEvs := (tokens.filter (fun t => t != "")).map Ev.llm_token
        match streamErr with
        | some e =>
          (some { st2 with processing := false },
            Ev.transcription text :: tokenEvs
              ++ tts_worker (get_audio_bytes speech_create) (ls.queue.map some)
              ++ [Ev.error e, Ev.status "ready"])
        | none =>
          (some { st2 with
                    conversation := st2.conversation ++ [("assistant", ls.full_reply)],
                    processing := false },
            Ev.transcription text :: tokenEvs
              ++ tts_worker (get_audio_bytes speech_create)
                   ((splitUnits tokens).map some ++ [none])
              ++ [Ev.tts_complete ls.chunk_index, Ev.status "ready"])

/-- The attribute names defined on the TTS class body in src/tts.py
(lines 13-57).  There is no `stop` and no `speak` method: the class
was refactored to `stop_local` and `speak_local`. -/
def ttsMethods : List String :=
  ["__init__", "get_audio_bytes", "_play_audio_local", "speak_local", "stop_local"]

/-- Whether a method call on the TTS object resolves; calling a
missing attribute raises AttributeError in Python. -/
def ttsHasMethod (m : String) : Bool := ttsMethods.contains m

/-- Loop-local state of LiveAssistant.run (src/main.py lines 60-63 and
the echo-suppression fields of lines 39-45).  Frames are opaque sample
blocks (`Nat` identifiers); times are in milliseconds, so the 2.0 s
interruption cooldown is 2000 and the 0.8 s post-speech silence window
is 800.  `input_queue` holds the frames sitting in `self.audio_queue`. -/
structure LiveState where
  audio_buffer : List Nat
  silent_frames : Nat
  speech_frames_count : Nat
  is_recording : Bool
  was_playing : Bool
  playback_start_time : Nat
  last_stop_talking_time : Nat
  input_queue : List Nat
  deriving DecidableEq, Repr

/-- The state at the top of LiveAssistant.run: empty buffers, zero
counters, flags down (src/main.py lines 39-45 and 60-63). -/
def LiveState.start : LiveState where
  audio_buffer := []
  silent_frames := 0
  speech_frames_count := 0
  is_recording := false
  was_playing := false
  playback_start_time := 0
  last_stop_talking_time := 0
  input_queue := []

/-- The recording logic of LiveAssistant.run (src/main.py lines
117-145).  Thresholds: recording starts on a speech frame once
`speech_frames_count > 3`; the end-of-utterance silence window is
`silent_frames > 800 / 30` i.e. at least 27 silent frames; the final
sanity gate dispatches to process_audio only when
`len(audio_buffer) > 16000 * 0.5 / 480` i.e. at least 17 frames. -/
def recordingLogic (s : LiveState) (frame : Nat) (isSpeech : Bool) :
    LiveState × Option (List Nat) :=
  if isSpeech then
    let sfc := s.speech_frames_count + 1
    let recNow := if !s.is_recording && sfc > 3 then true else s.is_recording
    let buf := if recNow then s.audio_buffer ++ [frame] else s.audio_buffer
    ({ s with speech_frames_count := sfc, is_recording := recNow,
              audio_buffer := buf, silent_frames := 0 }, none)
  else
    if s.is_recording then
      let sf := s.silent_frames + 1
      let buf := s.audio_buffer ++ [frame]
      if sf > 26 then
        ({ s with audio_buffer := [], is_recording := false,
                  silent_frames := 0, speech_frames_count := 0 },
         if buf.length > 16 then some buf else none)
      else ({ s with silent_frames := sf, audio_buffer := buf }, none)
    else ({ s with speech_frames_count := 0 }, none)

/-- One iteration of the `while True` loop of LiveAssistant.run
(src/main.py lines 65-145).  `arrivals` are the frames the microphone
callback pushed since the previous iteration, `playing` samples
`self.tts.is_playing`, `vadL`/`lowE` are the per-frame VAD verdict and
the `rms < ENERGY_THRESHOLD` test.  The result is the next state and
an optional dispatched utterance, or the message of an uncaught
exception: only `queue.Empty` is caught inside the loop, so the
AttributeError raised by the `self.tts.stop()` call on the
interruption path (TTS has no `stop` attribute) escapes the loop. -/
def runStepL (vadL : Nat → Bool) (lowE : Nat → Bool) (s : LiveState)
    (arrivals : List Nat) (playing : Bool) (now : Nat) :
    Except String (LiveState × Option (List Nat)) :=
  match s.input_queue ++ arrivals with
  | [] => Except.ok ({ s with input_queue := [] }, none)
  | frame :: qrest =>
    let s := { s with input_queue := qrest }
    let s := if s.was_playing && !playing then
               { s with last_stop_talking_time := now, input_queue := [] }
             else s
    let s := { s with was_playing := playing }
    let isSpeech := vadL frame && !lowE frame
    if playing then
      let s := if s.playback_start_time = 0 then { s with playback_start_time := now } else s
      if now - s.playback_start_time < 2000 then Except.ok (s, none)
      else if isSpeech then
        if ttsHasMethod "stop" then
          Except.ok ({ s with last_stop_talking_time := now, playback_start_time := 0,
                              audio_buffer := [], input_queue := [] }, none)
        else Except.error "AttributeError: TTS object has no attribute stop"
      else Except.ok (recordingLogic s frame isSpeech)
    else
      let s := { s with playback_start_time := 0 }
      if now - s.last_stop_talking_time < 800 then Except.ok (s, none)
      else Except.ok (recordingLogic s frame isSpeech)

/-- Folding runStepL over a list of iteration inputs
(arrivals, playing, now), collecting the dispatched utterances; an
uncaught exception terminates the loop. -/
def runLoopL (vadL : Nat → Bool) (lowE : Nat → Bool) (s : LiveState) :
    List (List Nat × Bool × Nat) → Except String LiveState × List (List Nat)
  | [] => (Except.ok s, [])
  | (arr, playing, now) :: rest =>
    match runStepL vadL lowE s arr playing now with
    | Except.error e => (Except.error e, [])
    | Except.ok (s1, d) =>
      let t := runLoopL vadL lowE s1 rest
      (t.1, d.toList ++ t.2)

/-- Modelled from the spec wording of claim C5 (spec section 4.2): the
splitter appends every incoming token to the buffer and, after each
append, emits a unit exactly when the buffer holds a terminal marker
and has reached the minimum length (the tunable minimum instantiated
at 16 characters, the code value `> 15`); the emitted text is the
buffer trimmed of surrounding whitespace, the buffer resets, and the
counter increments. -/
structure SpecSplitState where
  buffer : String
  idx : Nat
  units : List (String × Nat)
  deriving DecidableEq, Repr

/-- One append step of the claim-worded splitter. -/
def specStep (st : SpecSplitState) (token : String) : SpecSplitState :=
  let buf := st.buffer ++ token
  if splitCond buf then
    { buffer := "", idx := st.idx + 1, units := st.units ++ [(pyStrip buf, st.idx)] }
  else
    { st with buffer := buf }

/-- The claim-worded splitter over a whole stream, with the flush
clause exactly as claim C5 states it: at end of stream, any non-empty
remaining buffer is emitted as a final unit. -/
def specSplitClaim (tokens : List String) : List (String × Nat) :=
  let st := tokens.foldl specStep ⟨"", 0, []⟩
  if st.buffer = "" then st.units
  else st.units ++ [(pyStrip st.buffer, st.idx)]

/-- The claim-worded splitter with the flush clause amended to what
the code does: the final unit is emitted only when the remaining
buffer is non-empty after trimming whitespace. -/
def specSplitFlushTrim (tokens : List String) : List (String × Nat) :=
  let st := tokens.foldl specStep ⟨"", 0, []⟩
  if pyStrip st.buffer = "" then st.units
  else st.units ++ [(pyStrip st.buffer, st.idx)]

/-! Helper lemmas. -/

theorem appSegStep_processing (s : SessionState) (f : List Nat) (sp : Bool) :
    (appSegStep s f sp).1.processing = s.processing := by
  unfold appSegStep
  by_cases hsp : sp <;> by_cases hr : s.is_recording
  all_goals simp [hsp, hr]
  all_goals split <;> rfl

theorem appFramesLoop_processing (vad : List Nat → Option Bool) (frames : List (List Nat)) :
    ∀ s : SessionState, (appFramesLoop s vad frames).1.processing = s.processing := by
  induction frames with
  | nil => intro s; rfl
  | cons f fs ih =>
    intro s
    unfold appFramesLoop
    cases vad f with
    | none => exact ih s
    | some sp =>
      simpa [ih] using appSegStep_processing s f sp

theorem handle_audio_chunk_guard (s : SessionState) (data : List Nat)
    (vad : List Nat → Option Bool) (now : Nat) (h : s.processing = true) :
    handle_audio_chunk (some s) data vad now
      = ({ s with last_activity := now, chunk_count := s.chunk_count + 1 }, [], []) := by
  unfold handle_audio_chunk
  simp [Option.getD, h]

/-- C2: in `process_speech`, the `tts_complete` total equals
`chunk_index`, which the final-flush submission does not increment:
for the one-token stream `["Hi"]` exactly one unit (index 0) is
submitted and its audio outcome is delivered, yet the terminal signal
carries `total_chunks = 0`.  This contradicts the stated intent (the
code comment says the count tells the frontend how many chunks to
expect), so the claim is right and the code has an off-by-one. -/
theorem C2_total_count_excludes_flush :
    (splitUnits ["Hi"]).length = 1
    ∧ Ev.tts_complete 0 ∈ (process_speech (some SessionState.mkNew) []
        (fun _ => Except.ok "hello") ["Hi"] none (fun _ => some [1, 2])).2
    ∧ Ev.bot_audio [1, 2] 0 ∈ (process_speech (some SessionState.mkNew) []
        (fun _ => Except.ok "hello") ["Hi"] none (fun _ => some [1, 2])).2 := by
  decide

/-- C3 (counterexample): the server-variant segmenter of
handle_audio_chunk has no minimum-utterance-length gate: starting from
a fresh session, one speech frame followed by eleven silent frames
already emits a complete utterance of 12 frames, i.e. 12 × 30 = 360 ms
of audio, shorter than the 500 ms minimum the specification requires
and shorter than the 17-frame gate of the local variant. -/
theorem C3_no_min_length_gate_counterexample :
    ((appSegRun SessionState.mkNew (([1], true) :: List.replicate 11 ([2], false))).2.map
        List.length) = [12]
    ∧ 12 * 30 < 500 := by
  decide

/-- C4: while a session is marked processing, an arriving audio chunk
is discarded before reaching the VAD/segmenter — the frame buffer, the
utterance buffer, the recording flag, the counters, the history and
the processing flag are all unchanged, no event is emitted and no turn
is dispatched; and once processing is false again an arriving speech
frame starts a new utterance (recording turns on and the frame is
appended). -/
theorem C4_processing_guard_discards (s : SessionState) (data : List Nat)
    (vad : List Nat → Option Bool) (now : Nat) (h : s.processing = true) :
    ((handle_audio_chunk (some s) data vad now).1.vad_buffer = s.vad_buffer
      ∧ (handle_audio_chunk (some s) data vad now).1.audio_buffer = s.audio_buffer
      ∧ (handle_audio_chunk (some s) data vad now).1.is_recording = s.is_recording
      ∧ (handle_audio_chunk (some s) data vad now).1.silent_frames = s.silent_frames
      ∧ (handle_audio_chunk (some s) data vad now).1.speech_frames = s.speech_frames
      ∧ (handle_audio_chunk (some s) data vad now).1.conversation = s.conversation
      ∧ (handle_audio_chunk (some s) data vad now).1.processing = true
      ∧ (handle_audio_chunk (some s) data vad now).2.1 = []
      ∧ (handle_audio_chunk (some s) data vad now).2.2 = [])
    ∧ (∀ (t : SessionState) (f : List Nat), t.processing = false → t.is_recording = false →
        (appSegStep t f true).1.is_recording = true
        ∧ (appSegStep t f true).1.audio_buffer = t.audio_buffer ++ [f]) := by
  have hcore := handle_audio_chunk_guard s data vad now h
  refine ⟨?_, ?_⟩
  · rw [hcore]
    exact ⟨rfl, rfl, rfl, rfl, rfl, rfl, h, rfl, rfl⟩
  · intro t f _ hr
    simp [appSegStep, hr]

/-- Witness for C4 at a concrete processing session and chunk. -/
theorem C4_processing_guard_discards_witness :
    ((handle_audio_chunk (some { SessionState.mkNew with processing := true }) [1, 2, 3]
        (fun _ => some true) 9).2.1 = [])
    ∧ (appSegStep SessionState.mkNew [1] true).1.is_recording = true := by
  refine ⟨?_, ?_⟩
  · exact (C4_processing_guard_discards { SessionState.mkNew with processing := true }
      [1, 2, 3] (fun _ => some true) 9 rfl).1.2.2.2.2.2.2.2.1
  · exact ((C4_processing_guard_discards { SessionState.mkNew with processing := true }
      [1, 2, 3] (fun _ => some true) 9 rfl).2 SessionState.mkNew [1] rfl rfl).1

/-- C8: the interruption path of the local full-duplex variant is
broken: src/main.py line 106 calls `self.tts.stop()`, but the TTS
class of src/tts.py defines no `stop` attribute (only `stop_local`),
so detected speech while playback is active after the cooldown raises
AttributeError, which only `except KeyboardInterrupt` guards upstream,
terminating the processing loop instead of stopping playback and
flushing the queues. -/
theorem C8_interruption_path_raises :
    ttsHasMethod "stop" = false
    ∧ runStepL (fun _ => true) (fun _ => false)
        { LiveState.start with input_queue := [7], was_playing := true,
                               playback_start_time := 1000 } [] true 4000
        = Except.error "AttributeError: TTS object has no attribute stop"
    ∧ (runLoopL (fun _ => true) (fun _ => false)
        { LiveState.start with input_queue := [7], was_playing := true,
                               playback_start_time := 1000 } [([], true, 4000)]).1
        = Except.error "AttributeError: TTS object has no attribute stop" := by
  exact ⟨rfl, rfl, rfl⟩

/-- C9 (counterexample): an audio_chunk event for an unregistered
session id is not silently ignored — the handler creates a fresh
session state (src/app.py lines 83-84) and processes the chunk into
it: the registry holds an entry afterwards and the arriving bytes are
buffered. -/
theorem C9_unknown_session_creates_state_counterexample :
    sessionsAfterAudioChunk none [1, 2, 3] (fun _ => some false) 7 ≠ none
    ∧ (handle_audio_chunk none [1, 2, 3] (fun _ => some false) 7).1.vad_buffer = [1, 2, 3] := by
  decide

/-- C9 (amended): a late process_speech task for an unregistered
session id is silently ignored — no state is created or mutated and no
event is emitted — while the audio_chunk handler treats an
unregistered id exactly as a freshly created session. -/
theorem C9_unknown_session_behavior :
    (∀ (audio : List Nat) (stt : List Nat → Except String String) (tokens : List String)
        (streamErr : Option String) (sc : String → Option (List Nat)),
        process_speech none audio stt tokens streamErr sc = (none, []))
    ∧ (∀ (data : List Nat) (vad : List Nat → Option Bool) (now : Nat),
        handle_audio_chunk none data vad now
          = handle_audio_chunk (some SessionState.mkNew) data vad now) :=
  ⟨fun _ _ _ _ _ => rfl, fun _ _ _ => rfl⟩

/-- C10: handle_audio_chunk never writes the processing flag — it only
spawns the turn task, which sets the flag itself when it starts — so
immediately after a dispatching call returns the flag is still false,
and a subsequent speech frame reaching the segmenter starts a new
utterance: recording turns on, the frame is appended, and the flag is
still false. -/
theorem C10_flag_unset_at_dispatch (s : SessionState) (data : List Nat)
    (vad : List Nat → Option Bool) (now : Nat) (h : s.processing = false) :
    (handle_audio_chunk (some s) data vad now).1.processing = false
    ∧ (∀ (t : SessionState) (f : List Nat), t.processing = false → t.is_recording = false →
        (appSegStep t f true).1.is_recording = true
        ∧ (appSegStep t f true).1.audio_buffer = t.audio_buffer ++ [f]
        ∧ (appSegStep t f true).1.processing = false) := by
  refine ⟨?_, ?_⟩
  · unfold handle_audio_chunk
    simp only [Option.getD]
    rw [if_neg (by simpa using h)]
    simpa [appFramesLoop_processing] using h
  · intro t f hp hr
    refine ⟨?_, ?_, ?_⟩ <;> simp [appSegStep, hr, hp]

/-- Witness for C10 at a concrete idle session. -/
theorem C10_flag_unset_at_dispatch_witness :
    (handle_audio_chunk (some SessionState.mkNew) [] (fun _ => some true) 5).1.processing = false
    ∧ (appSegStep SessionState.mkNew [1] true).1.processing = false := by
  refine ⟨?_, ?_⟩
  · exact (C10_flag_unset_at_dispatch SessionState.mkNew [] (fun _ => some true) 5 rfl).1
  · exact (((C10_flag_unset_at_dispatch SessionState.mkNew [] (fun _ => some true) 5 rfl).2
      SessionState.mkNew [1] rfl rfl).2).2

theorem recordingLogic_dispatch_length (s : LiveState) (f : Nat) (sp : Bool) (u : List Nat)
    (h : (recordingLogic s f sp).2 = some u) : 16 < u.length := by
  unfold recordingLogic at h
  split at h
  · simp at h
  · split at h
    · dsimp only at h
      split at h
      · dsimp only at h
        split at h
        · next hgt =>
            obtain rfl := Option.some.inj (by simpa using h)
            simpa using hgt
        · simp at h
      · simp at h
    · simp at h

theorem runStepL_dispatch_length (vadL lowE : Nat → Bool) (s : LiveState)
    (arr : List Nat) (playing : Bool) (now : Nat) (s1 : LiveState) (u : List Nat)
    (h : runStepL vadL lowE s arr playing now = Except.ok (s1, some u)) : 16 < u.length := by
  unfold runStepL at h
  dsimp only at h
  repeat' split at h
  all_goals
    first
      | (exfalso; simp at h; done)
      | (apply recordingLogic_dispatch_length
         rw [Except.ok.inj h])

/-- C3 (amended): the local variant (src/main.py) does enforce the
minimum-utterance gate: over any run of the LiveAssistant loop, every
utterance dispatched to process_audio holds more than 16 frames
(at least 17 × 30 = 510 ms), because the sanity check at line 137
guards every dispatch.  The server variant has no such gate (see the
counterexample). -/
theorem C3_local_min_utterance_length (vadL lowE : Nat → Bool) (s : LiveState)
    (inputs : List (List Nat × Bool × Nat)) :
    ∀ u ∈ (runLoopL vadL lowE s inputs).2, 16 < u.length := by
  induction inputs generalizing s with
  | nil => intro u hu; simp [runLoopL] at hu
  | cons i rest ih =>
    obtain ⟨arr, playing, now⟩ := i
    intro u hu
    unfold runLoopL at hu
    cases hstep : runStepL vadL lowE s arr playing now with
    | error e => rw [hstep] at hu; simp at hu
    | ok p =>
      obtain ⟨s1, d⟩ := p
      rw [hstep] at hu
      cases d with
      | none => exact ih s1 u (by simpa using hu)
      | some v =>
        rcases (by simpa using hu : u = v ∨ u ∈ (runLoopL vadL lowE s1 rest).2) with h1 | h2
        · exact h1 ▸ runStepL_dispatch_length vadL lowE s arr playing now s1 v hstep
        · exact ih s1 u h2

/-- Witness for C3 (amended): a concrete run — four speech frames then
27 silent frames — dispatches one utterance, and the theorem bounds
its length. -/
theorem C3_local_min_utterance_length_witness :
    16 < ((runLoopL (fun f => f < 100) (fun _ => false) LiveState.start
      (((List.range 4).map (fun k => ([k + 1], false, 10000)))
        ++ ((List.range 27).map (fun k => ([k + 101], false, 10000))))).2.headI).length :=
  C3_local_min_utterance_length (fun f => f < 100) (fun _ => false) LiveState.start
    (((List.range 4).map (fun k => ([k + 1], false, 10000)))
      ++ ((List.range 27).map (fun k => ([k + 101], false, 10000))))
    _ (by decide)

/-- The outcome the TTS worker emits for one queued (text, index)
item: audio when the synthesized bytes are truthy, a skip otherwise. -/
def workerOutcome (synth : String → Option (List Nat)) (p : String × Nat) : Ev :=
  match synth p.1 with
  | some bytes => if bytes = [] then Ev.bot_audio_skip p.2 else Ev.bot_audio bytes p.2
  | none => Ev.bot_audio_skip p.2

theorem tts_worker_eq_map (synth : String → Option (List Nat)) (items : List (String × Nat)) :
    tts_worker synth (items.map some ++ [none]) = items.map (workerOutcome synth) := by
  induction items with
  | nil => rfl
  | cons p rest ih =>
    obtain ⟨text, index⟩ := p
    simp only [List.map_cons, List.cons_append, List.append_eq, tts_worker, workerOutcome, ih]

theorem outcomeIndex_workerOutcome (synth : String → Option (List Nat)) (p : String × Nat) :
    outcomeIndex (workerOutcome synth p) = some p.2 := by
  unfold workerOutcome
  cases synth p.1 with
  | none => rfl
  | some bytes =>
    by_cases hb : bytes = [] <;> simp [hb, outcomeIndex]

theorem streamStep_queue_indices (ls : LoopState) (token : String)
    (h : ls.queue.map Prod.snd = List.range ls.chunk_index) :
    (streamStep ls token).queue.map Prod.snd = List.range (streamStep ls token).chunk_index := by
  unfold streamStep
  split
  · exact h
  · dsimp only
    split
    · simp [h, List.range_succ]
    · exact h

theorem foldl_streamStep_indices (tokens : List String) :
    ∀ ls : LoopState, ls.queue.map Prod.snd = List.range ls.chunk_index →
      (tokens.foldl streamStep ls).queue.map Prod.snd
        = List.range (tokens.foldl streamStep ls).chunk_index := by
  induction tokens with
  | nil => intro ls h; exact h
  | cons t rest ih => intro ls h; exact ih _ (streamStep_queue_indices ls t h)

/-- The units submitted to the worker queue for one turn carry the
sequence indices 0, 1, ... in submission order. -/
theorem splitUnits_indices (tokens : List String) :
    (splitUnits tokens).map Prod.snd = List.range (splitUnits tokens).length := by
  have hq : (runStream tokens).queue.map Prod.snd = List.range (runStream tokens).chunk_index :=
    foldl_streamStep_indices tokens ⟨"", "", 0, []⟩ (by rfl)
  have hlen : (runStream tokens).queue.length = (runStream tokens).chunk_index := by
    have h1 := congrArg List.length hq
    simpa using h1
  unfold splitUnits
  dsimp only
  split
  · rw [hlen]
    exact hq
  · simp [hq, hlen, List.range_succ]

/-- C1: units are submitted to the dispatcher queue in index order 0..N-1
(splitUnits_indices restated as the first conjunct), and for any N
units so submitted the single FIFO worker delivers exactly one outcome
per index, in index order with no gaps — the event at position i
carries index i — and a synthesis failure for unit i (the engine call
returning None) yields the skip outcome at that position while every
other queued unit still receives its outcome. -/
theorem C1_ordered_outcomes_and_skip (items : List (String × Nat))
    (sc : String → Option (List Nat))
    (h : items.map Prod.snd = List.range items.length) :
    (∀ tokens : List String,
        (splitUnits tokens).map Prod.snd = List.range (splitUnits tokens).length)
    ∧ (tts_worker (get_audio_bytes sc) (items.map some ++ [none])).map outcomeIndex
        = (List.range items.length).map some
    ∧ ∀ i : Fin items.length, get_audio_bytes sc (items.get i).1 = none →
        (tts_worker (get_audio_bytes sc) (items.map some ++ [none])).get? i
          = some (Ev.bot_audio_skip i) := by
  have hmap := tts_worker_eq_map (get_audio_bytes sc) items
  refine ⟨splitUnits_indices, ?_, ?_⟩
  · rw [hmap, List.map_map]
    have hco : (outcomeIndex ∘ workerOutcome (get_audio_bytes sc)) = (some ∘ Prod.snd) := by
      funext p
      exact outcomeIndex_workerOutcome (get_audio_bytes sc) p
    rw [hco, ← List.map_map, h]
  · intro i hfail
    have hidx : (items.get i).2 = i.val := by
      have h2 : (items.map Prod.snd).get? i.val = some i.val := by
        rw [h]
        exact List.get?_range i.isLt
      rw [List.get?_map, List.get?_eq_get i.isLt] at h2
      simpa using h2
    rw [hmap, List.get?_map, List.get?_eq_get i.isLt]
    simp only [Option.map_some']
    rw [show items.get ⟨i.val, i.isLt⟩ = items.get i from rfl]
    unfold workerOutcome
    rw [hfail, hidx]

/-- Witness for C1: two units with indices 0, 1 where synthesis of the
second fails (empty text makes get_audio_bytes return None): the
worker still emits an outcome at position 1, the skip for index 1. -/
theorem C1_ordered_outcomes_and_skip_witness :
    (tts_worker (get_audio_bytes (fun t => if t = "hello" then some [5] else none))
        ([("hello", 0), ("", 1)].map some ++ [none])).get? 1
      = some (Ev.bot_audio_skip 1) :=
  (C1_ordered_outcomes_and_skip [("hello", 0), ("", 1)]
      (fun t => if t = "hello" then some [5] else none) (by decide)).2.2
    ⟨1, by decide⟩ (by decide)

theorem splitCond_empty : splitCond "" = false := by decide

theorem specStep_agrees (sp : SpecSplitState) (ls : LoopState) (token : String)
    (hbuf : sp.buffer = ls.sentence_buffer) (hidx : sp.idx = ls.chunk_index)
    (hun : sp.units = ls.queue) (hcond : splitCond ls.sentence_buffer = false) :
    (specStep sp token).buffer = (streamStep ls token).sentence_buffer
    ∧ (specStep sp token).idx = (streamStep ls token).chunk_index
    ∧ (specStep sp token).units = (streamStep ls token).queue
    ∧ splitCond (streamStep ls token).sentence_buffer = false := by
  unfold specStep streamStep
  by_cases ht : token = ""
  · subst ht
    simp only [String.append_empty, hbuf, hcond, Bool.false_eq_true, if_false, if_pos rfl]
    exact ⟨rfl, hidx, hun, hcond⟩
  · rw [if_neg ht]
    dsimp only
    rw [hbuf, hidx, hun]
    by_cases hc : splitCond (ls.sentence_buffer ++ token) = true
    · simp [hc, splitCond_empty]
    · have hc2 : splitCond (ls.sentence_buffer ++ token) = false := by
        simpa using hc
      simp [hc2]

theorem specFold_agrees (tokens : List String) :
    ∀ (sp : SpecSplitState) (ls : LoopState),
      sp.buffer = ls.sentence_buffer → sp.idx = ls.chunk_index → sp.units = ls.queue →
      splitCond ls.sentence_buffer = false →
      (tokens.foldl specStep sp).buffer = (tokens.foldl streamStep ls).sentence_buffer
      ∧ (tokens.foldl specStep sp).idx = (tokens.foldl streamStep ls).chunk_index
      ∧ (tokens.foldl specStep sp).units = (tokens.foldl streamStep ls).queue := by
  induction tokens with
  | nil =>
    intro sp ls h1 h2 h3 _
    exact ⟨h1, h2, h3⟩
  | cons t rest ih =>
    intro sp ls h1 h2 h3 h4
    obtain ⟨g1, g2, g3, g4⟩ := specStep_agrees sp ls t h1 h2 h3 h4
    exact ih _ _ g1 g2 g3 g4

/-- C5 (counterexample): at end of stream the code flushes the
remaining buffer only when it is non-empty after stripping
(src/app.py line 236 tests `sentence_buffer.strip()`), so for the
token stream [" "] the remaining buffer " " is non-empty yet no final
unit is emitted, while the claim-worded splitter emits one. -/
theorem C5_whitespace_flush_counterexample :
    specSplitClaim [" "] ≠ splitUnits [" "]
    ∧ specSplitClaim [" "] = [("", 0)]
    ∧ splitUnits [" "] = [] := by
  decide

/-- C5 (amended): with the flush clause weakened to fire only when the
remaining buffer is non-empty after trimming whitespace, the
claim-worded splitter computes exactly the units the code submits, for
every token stream: per-append emission happens exactly when the
buffer holds a terminal marker and exceeds 15 characters, the emitted
text is the stripped buffer, the buffer resets and the index
increments. -/
theorem C5_splitter_refinement (tokens : List String) :
    specSplitFlushTrim tokens = splitUnits tokens := by
  obtain ⟨g1, g2, g3⟩ :=
    specFold_agrees tokens ⟨"", 0, []⟩ ⟨"", "", 0, []⟩ rfl rfl rfl (by decide)
  unfold specSplitFlushTrim splitUnits runStream
  dsimp only
  rw [g1, g2, g3]

/-- C6: when STT returns text that is empty or shorter than two
characters after stripping, the turn aborts silently: the returned
session state differs from the entry state only in the cleared
processing flag (in particular the history is untouched) and the only
emitted event is a single ready status. -/
theorem C6_stt_guard_aborts_silently (st : SessionState) (audio : List Nat)
    (stt : List Nat → Except String String) (tokens : List String)
    (streamErr : Option String) (sc : String → Option (List Nat)) (text : String)
    (hstt : stt audio = Except.ok text)
    (hshort : pyStrip text = "" ∨ (pyStrip text).data.length < 2) :
    process_speech (some st) audio stt tokens streamErr sc
      = (some { st with processing := false }, [Ev.status "ready"]) := by
  unfold process_speech
  rw [hstt]
  dsimp only
  rw [if_pos hshort]

/-- Witness for C6 at a concrete session and an empty transcription. -/
theorem C6_stt_guard_aborts_silently_witness :
    process_speech (some SessionState.mkNew) [] (fun _ => Except.ok "") [] none (fun _ => none)
      = (some { SessionState.mkNew with processing := false }, [Ev.status "ready"]) :=
  C6_stt_guard_aborts_silently SessionState.mkNew [] (fun _ => Except.ok "") [] none
    (fun _ => none) "" rfl (Or.inl rfl)

theorem count_ready_llm_tokens (l : List String) :
    (l.map Ev.llm_token).count (Ev.status "ready") = 0 := by
  rw [List.count_eq_zero]
  intro hmem
  rcases List.mem_map.mp hmem with ⟨a, _, ha⟩
  simp at ha

theorem ready_not_mem_tts_worker (f : String → Option (List Nat)) :
    ∀ q : List (Option (String × Nat)), Ev.status "ready" ∉ tts_worker f q := by
  intro q
  induction q with
  | nil => simp [tts_worker]
  | cons o rest ih =>
    cases o with
    | none => simp [tts_worker]
    | some p =>
      obtain ⟨text, index⟩ := p
      intro hmem
      rw [tts_worker] at hmem
      rcases List.mem_cons.mp hmem with h1 | h2
      · cases hf : f text with
        | none => rw [hf] at h1; simp at h1
        | some bytes =>
          rw [hf] at h1
          by_cases hb : bytes = [] <;> simp [hb] at h1
      · exact ih h2

/-- C7 (counterexample): a synthesis failure does not produce an error
signal — the worker reports it as a per-unit skip instead.  In a turn
whose only sentence fails to synthesize, the emitted events contain a
skip for index 0 and no error event at all, refuting the claim that a
failure at the synthesis step emits an error signal. -/
theorem C7_synthesis_failure_no_error_counterexample :
    Ev.bot_audio_skip 0 ∈ (process_speech (some SessionState.mkNew) []
        (fun _ => Except.ok "hello") ["This is a long sentence."] none (fun _ => none)).2
    ∧ ((process_speech (some SessionState.mkNew) []
        (fun _ => Except.ok "hello") ["This is a long sentence."] none
        (fun _ => none)).2.all (fun e => ! e.isErrorEv)) = true := by
  decide

/-- C7 (amended): on every execution path of a turn the session leaves
the processing state and exactly one ready status is emitted; a
failure of the STT call or of the completion stream additionally emits
an error signal carrying the exception message.  (A synthesis failure
emits a per-unit skip instead of an error signal — see the
counterexample — but the recovery guarantees still hold on that path,
covered here by the universally quantified synthesis oracle.) -/
theorem C7_turn_always_recovers (st : SessionState) (audio : List Nat)
    (stt : List Nat → Except String String) (tokens : List String)
    (streamErr : Option String) (sc : String → Option (List Nat)) :
    (∃ st1, (process_speech (some st) audio stt tokens streamErr sc).1 = some st1
        ∧ st1.processing = false)
    ∧ (process_speech (some st) audio stt tokens streamErr sc).2.count (Ev.status "ready") = 1
    ∧ (∀ e, stt audio = Except.error e →
        Ev.error e ∈ (process_speech (some st) audio stt tokens streamErr sc).2)
    ∧ (∀ e text, stt audio = Except.ok text →
        ¬(pyStrip text = "" ∨ (pyStrip text).data.length < 2) → streamErr = some e →
        Ev.error e ∈ (process_speech (some st) audio stt tokens streamErr sc).2) := by
  unfold process_speech
  cases hstt : stt audio with
  | error e0 =>
    dsimp only
    refine ⟨⟨_, rfl, rfl⟩, ?_, ?_, ?_⟩
    · simp [List.count_cons]
    · intro e he
      obtain rfl := Except.error.inj he
      simp
    · intro e text he
      exact absurd he (by simp)
  | ok text0 =>
    dsimp only
    by_cases hguard : pyStrip text0 = "" ∨ (pyStrip text0).data.length < 2
    · rw [if_pos hguard]
      refine ⟨⟨_, rfl, rfl⟩, ?_, ?_, ?_⟩
      · simp [List.count_cons]
      · intro e he
        exact absurd he (by simp)
      · intro e text he hg _
        obtain rfl := Except.ok.inj he
        exact absurd hguard hg
    · rw [if_neg hguard]
      cases streamErr with
      | some e1 =>
        dsimp only
        refine ⟨⟨_, rfl, rfl⟩, ?_, ?_, ?_⟩
        · simp [List.count_append, List.count_cons, count_ready_llm_tokens,
            List.count_eq_zero.mpr (ready_not_mem_tts_worker (get_audio_bytes sc) _)]
        · intro e he
          exact absurd he (by simp)
        · intro e text _ _ hse
          obtain rfl := Option.some.inj hse
          simp
      | none =>
        dsimp only
        refine ⟨⟨_, rfl, rfl⟩, ?_, ?_, ?_⟩
        · simp [List.count_append, List.count_cons, count_ready_llm_tokens,
            List.count_eq_zero.mpr (ready_not_mem_tts_worker (get_audio_bytes sc) _)]
        · intro e he
          exact absurd he (by simp)
        · intro e text _ _ hse
          exact absurd hse (by simp)

/-- Witness for C7 (amended) at a turn whose STT call raises. -/
theorem C7_turn_always_recovers_witness :
    Ev.error "boom" ∈ (process_speech (some SessionState.mkNew) []
      (fun _ => Except.error "boom") [] none (fun _ => none)).2 :=
  (C7_turn_always_recovers SessionState.mkNew [] (fun _ => Except.error "boom") [] none
    (fun _ => none)).2.2.1 "boom" rfl
